import Mathlib

/-!
Shallow embedding of the `links-ads/burned-area-segmentation` step policies:
`MultiTaskModule` (src/baseg/modules/multi.py), `MMSegModule`
(src/baseg/modules.py) and `CustomEncoderDecoder`
(src/baseg/models/encoder_decoder.py).

Tensors are modelled over `ℚ`.  A logit volume `[B, C, H, W]` is flattened to
`Vol := List (List ℚ)`: outer list = pixels (batch and spatial dims flattened),
inner list = channels.  Label tensors `[B, H, W]` are `List ℤ` over the same
pixel flattening.  The external collaborators (model forward, loss criteria,
tiler, sigmoid) are fields/parameters: the repository treats them as external,
only the call pattern (which arguments, in which form) belongs to this code.
Each step method is translated into a pure function returning the loss, the
(possibly mutated) batch, and a trace of `Event`s recording every criterion
call, metric-accumulator update and log emission in program order.
-/

namespace Baseg

/-- A logit volume: outer list indexes pixels, inner list indexes channels. -/
abbrev Vol := List (List ℚ)

/-- `tensor.squeeze(1)` on a single-channel logit volume `[B, 1, H, W]`:
drop the channel axis, keeping the unique per-pixel logit. -/
def squeeze1 (v : Vol) : List ℚ :=
  v.map (fun cs => cs.headD 0)

/-- Index of the first maximal element of a channel list (`argmax` over dim 1
for one pixel); `0` on the empty list. -/
def argmaxIdx (cs : List ℚ) : ℤ :=
  (cs.foldl
    (fun acc c =>
      match acc with
      | (best, bestIdx, idx) => if best < c then (c, idx, idx + 1) else (best, bestIdx, idx + 1))
    ((cs.headD 0, 0, 0) : ℚ × ℤ × ℤ)).2.1

/-- `tensor.argmax(1)` on a multi-class logit volume: per-pixel class index. -/
def argmax1 (v : Vol) : List ℤ :=
  v.map argmaxIdx

/-- `tensor.float()` on an integer label tensor. -/
def toFloatT (ys : List ℤ) : List ℚ :=
  ys.map (fun y => (y : ℚ))

/-- `y_lc[y_del == 1] = 255`: overwrite the land-cover label with the ignore
sentinel at every pixel whose delineation label is 1. -/
def maskLC (y_lc y_del : List ℤ) : List ℤ :=
  List.zipWith (fun lc del => if del = 1 then (255 : ℤ) else lc) y_lc y_del

/-- Form of the prediction argument handed to a decode loss/metric. -/
inductive DecodePred where
  /-- the full (un-squeezed) logit volume, as in the severity branch -/
  | volume (v : Vol)
  /-- the channel-squeezed logits, as in the non-severity branch -/
  | squeezed (p : List ℚ)
  /-- a thresholded boolean mask (`sigmoid(logits) > 0.5`), as in
  `MMSegModule`'s delineation metrics -/
  | boolMask (bs : List Bool)
  deriving DecidableEq, Repr

/-- Form of the target argument handed to a decode loss/metric. -/
inductive DecodeTarget where
  /-- `y.long()`: integer class indices -/
  | longT (ys : List ℤ)
  /-- `y.float()`: float targets -/
  | floatT (ys : List ℚ)
  deriving DecidableEq, Repr

/-- Form of the prediction argument handed to an auxiliary metric. -/
inductive AuxPred where
  /-- the raw multi-class logit volume -/
  | logits (v : Vol)
  /-- per-pixel class indices (`logits.argmax(1)`) -/
  | classIdx (ys : List ℤ)
  deriving DecidableEq, Repr

/-- One observable action of a step, in program order. -/
inductive Event where
  /-- `self.criterion_decode(pred, target)` -/
  | decodeLossCall (p : DecodePred) (t : DecodeTarget)
  /-- `self.criterion_auxiliary(logits, labels)` -/
  | auxLossCall (logits : Vol) (labels : List ℤ)
  /-- `self.log(key, scalar, ...)` -/
  | logScalar (key : String) (v : ℚ)
  /-- delineation metric accumulator update `metric(pred, target)` -/
  | metricUpdate (name : String) (p : DecodePred) (t : DecodeTarget)
  /-- auxiliary metric accumulator update `metric(pred, labels)` -/
  | auxMetricUpdate (name : String) (p : AuxPred) (labels : List ℤ)
  /-- `self.log(metric_name, metric, ...)` -/
  | logMetric (name : String)
  deriving DecidableEq, Repr

/-- A batch: a mapping from the configured keys to tensors.  The image entry is
kept abstract (`img : List I`, the outer list being the batch dimension so that
`full_image[0]` is expressible); labels are pixel-flattened integer tensors.
`pred` models the `"pred"` key attached by `predict_step` (absent before). -/
structure Batch (I : Type) where
  img : List I
  y_del : List ℤ
  y_lc : List ℤ
  pred : Option (List ℚ)
  deriving DecidableEq, Repr

/-- `MultiTaskModule`: the state fixed at construction that the step methods
read.  Loss criteria, the model forward and the tiler are external
collaborators, so they are abstract function fields; `criterion_decode`
consumes the tagged argument forms so that the call-site dtype/shape policy is
part of the trace. -/
structure MultiTaskModule (I : Type) where
  severity : Bool
  mask_lc : Bool
  aux_factor : ℚ
  criterion_decode : DecodePred → DecodeTarget → ℚ
  criterion_auxiliary : Vol → List ℤ → ℚ
  model : List I → Vol × Vol
  tiler : I → (List I → List ℚ) → List ℚ
  train_metrics : List String
  train_metrics_aux : List String
  val_metrics : List String
  val_metrics_aux : List String
  test_metrics : List String
  test_metrics_aux : List String

/-- Result of one step: the returned loss, the batch (after any in-place
mutation), and the trace of observable actions. -/
structure StepResult (I : Type) where
  loss : ℚ
  batch : Batch I
  events : List Event

/-- The argument pair handed to the decode criterion and to each delineation
metric: `(decode_out, y_del.long())` in severity mode,
`(decode_out.squeeze(1), y_del.float())` otherwise (multi.py lines 105-108,
117-120 and the analogous validation/test lines). -/
def decodeArgs {I : Type} (m : MultiTaskModule I) (decode_out : Vol) (y_del : List ℤ) :
    DecodePred × DecodeTarget :=
  if m.severity then (DecodePred.volume decode_out, DecodeTarget.longT y_del)
  else (DecodePred.squeezed (squeeze1 decode_out), DecodeTarget.floatT (toFloatT y_del))

/-- `MultiTaskModule.training_step` (multi.py lines 98-126). -/
def MultiTaskModule.training_step {I : Type} (m : MultiTaskModule I) (batch : Batch I) :
    StepResult I :=
  let x := batch.img
  let y_del := batch.y_del
  let y_lc := if m.mask_lc then maskLC batch.y_lc y_del else batch.y_lc
  let batch1 : Batch I := { batch with y_lc := y_lc }
  let out := m.model x
  let auxiliary_out := out.2
  let args := decodeArgs m out.1 y_del
  let loss_decode := m.criterion_decode args.1 args.2
  let loss_auxiliary := m.criterion_auxiliary auxiliary_out y_lc
  let loss := loss_decode + m.aux_factor * loss_auxiliary
  let events :=
    [Event.decodeLossCall args.1 args.2,
     Event.auxLossCall auxiliary_out y_lc,
     Event.logScalar "train_loss_del" loss_decode,
     Event.logScalar "train_loss_aux" loss_auxiliary,
     Event.logScalar "train_loss" loss]
    ++ m.train_metrics.flatMap
        (fun name => [Event.metricUpdate name args.1 args.2, Event.logMetric name])
    ++ m.train_metrics_aux.flatMap
        (fun name =>
          [Event.auxMetricUpdate name (AuxPred.logits auxiliary_out) y_lc,
           Event.logMetric name])
  ⟨loss, batch1, events⟩

/-- `MultiTaskModule.validation_step` (multi.py lines 128-156). -/
def MultiTaskModule.validation_step {I : Type} (m : MultiTaskModule I) (batch : Batch I) :
    StepResult I :=
  let x := batch.img
  let y_del := batch.y_del
  let y_lc := if m.mask_lc then maskLC batch.y_lc y_del else batch.y_lc
  let batch1 : Batch I := { batch with y_lc := y_lc }
  let out := m.model x
  let auxiliary_out := out.2
  let args := decodeArgs m out.1 y_del
  let loss_decode := m.criterion_decode args.1 args.2
  let loss_auxiliary := m.criterion_auxiliary auxiliary_out y_lc
  let loss := loss_decode + m.aux_factor * loss_auxiliary
  let events :=
    [Event.decodeLossCall args.1 args.2,
     Event.auxLossCall auxiliary_out y_lc,
     Event.logScalar "val_loss_del" loss_decode,
     Event.logScalar "val_loss_aux" loss_auxiliary,
     Event.logScalar "val_loss" loss]
    ++ m.val_metrics.flatMap
        (fun name => [Event.metricUpdate name args.1 args.2, Event.logMetric name])
    ++ m.val_metrics_aux.flatMap
        (fun name =>
          [Event.auxMetricUpdate name (AuxPred.logits auxiliary_out) y_lc,
           Event.logMetric name])
  ⟨loss, batch1, events⟩

/-- `MultiTaskModule.test_step` (multi.py lines 158-187): the land-cover label
is never read, no masking happens, the auxiliary loss and auxiliary metrics are
commented out, and only the delineation loss is returned. -/
def MultiTaskModule.test_step {I : Type} (m : MultiTaskModule I) (batch : Batch I) :
    StepResult I :=
  let x := batch.img
  let y_del := batch.y_del
  let out := m.model x
  let args := decodeArgs m out.1 y_del
  let loss_decode := m.criterion_decode args.1 args.2
  let loss := loss_decode
  let events :=
    [Event.decodeLossCall args.1 args.2]
    ++ m.test_metrics.flatMap
        (fun name => [Event.metricUpdate name args.1 args.2, Event.logMetric name])
  ⟨loss, batch, events⟩

/-- The tile callback closed over by `predict_step`: run the model on the tile
batch, keep the delineation head, arg-max over classes in severity mode,
channel-squeeze otherwise. -/
def predictCallback {I : Type} (m : MultiTaskModule I) : List I → List ℚ :=
  fun tb =>
    let del_out := (m.model tb).1
    if m.severity then (argmax1 del_out).map (fun y => (y : ℚ))
    else squeeze1 del_out

/-- `MultiTaskModule.predict_step` (multi.py lines 189-200), parameterized by
the external element-wise `torch.sigmoid`.  `full_image[0]` fails on an empty
batch dimension, modelled by `none`. -/
def MultiTaskModule.predict_step {I : Type} (sig : ℚ → ℚ) (m : MultiTaskModule I)
    (batch : Batch I) : Option (Batch I) :=
  match batch.img with
  | [] => none
  | i0 :: _ =>
    let full_pred := m.tiler i0 (predictCallback m)
    some { batch with pred := some (full_pred.map sig) }

/-- `MMSegModule` (modules.py): no severity/masking switches, fixed batch keys,
composite loss with implicit factor 1. -/
structure MMSegModule (I : Type) where
  criterion_decode : DecodePred → DecodeTarget → ℚ
  criterion_auxiliary : Vol → List ℤ → ℚ
  model : List I → Vol × Vol

/-- `sigmoid(logits) > 0.5`: the thresholded prediction fed to `MMSegModule`'s
delineation metrics, for a given external `sigmoid`. -/
def threshHalf (sig : ℚ → ℚ) (ps : List ℚ) : List Bool :=
  ps.map (fun p => decide ((1 : ℚ) / 2 < sig p))

/-- `MMSegModule.training_step` (modules.py lines 25-49), parameterized by the
external `torch.sigmoid` used in the metric calls. -/
def MMSegModule.training_step {I : Type} (sig : ℚ → ℚ) (m : MMSegModule I)
    (batch : Batch I) : StepResult I :=
  let x := batch.img
  let y_del := batch.y_del
  let y_lc := batch.y_lc
  let out := m.model x
  let decode_out := out.1
  let auxiliary_out := out.2
  let args : DecodePred × DecodeTarget :=
    (DecodePred.squeezed (squeeze1 decode_out), DecodeTarget.floatT (toFloatT y_del))
  let loss_decode := m.criterion_decode args.1 args.2
  let loss_auxiliary := m.criterion_auxiliary auxiliary_out y_lc
  let loss := loss_decode + loss_auxiliary
  let events :=
    [Event.decodeLossCall args.1 args.2,
     Event.auxLossCall auxiliary_out y_lc,
     Event.metricUpdate "f1_del" (DecodePred.boolMask (threshHalf sig (squeeze1 decode_out)))
       (DecodeTarget.floatT (toFloatT y_del)),
     Event.metricUpdate "iou_del" (DecodePred.boolMask (threshHalf sig (squeeze1 decode_out)))
       (DecodeTarget.floatT (toFloatT y_del)),
     Event.auxMetricUpdate "f1_aux" (AuxPred.classIdx (argmax1 auxiliary_out)) y_lc,
     Event.auxMetricUpdate "iou_aux" (AuxPred.classIdx (argmax1 auxiliary_out)) y_lc,
     Event.logScalar "train_loss_del" loss_decode,
     Event.logScalar "train_loss_aux" loss_auxiliary,
     Event.logScalar "train_loss_tot" loss,
     Event.logMetric "train_f1_del",
     Event.logMetric "train_iou_del",
     Event.logMetric "train_f1_aux",
     Event.logMetric "train_iou_aux"]
  ⟨loss, batch, events⟩

/-- `MMSegModule.validation_step` (modules.py lines 54-80). -/
def MMSegModule.validation_step {I : Type} (sig : ℚ → ℚ) (m : MMSegModule I)
    (batch : Batch I) : StepResult I :=
  let x := batch.img
  let y_del := batch.y_del
  let y_lc := batch.y_lc
  let out := m.model x
  let decode_out := out.1
  let auxiliary_out := out.2
  let args : DecodePred × DecodeTarget :=
    (DecodePred.squeezed (squeeze1 decode_out), DecodeTarget.floatT (toFloatT y_del))
  let loss_decode := m.criterion_decode args.1 args.2
  let loss_auxiliary := m.criterion_auxiliary auxiliary_out y_lc
  let loss := loss_decode + loss_auxiliary
  let events :=
    [Event.decodeLossCall args.1 args.2,
     Event.auxLossCall auxiliary_out y_lc,
     Event.metricUpdate "f1_del" (DecodePred.boolMask (threshHalf sig (squeeze1 decode_out)))
       (DecodeTarget.floatT (toFloatT y_del)),
     Event.metricUpdate "iou_del" (DecodePred.boolMask (threshHalf sig (squeeze1 decode_out)))
       (DecodeTarget.floatT (toFloatT y_del)),
     Event.auxMetricUpdate "f1_aux" (AuxPred.classIdx (argmax1 auxiliary_out)) y_lc,
     Event.auxMetricUpdate "iou_aux" (AuxPred.classIdx (argmax1 auxiliary_out)) y_lc,
     Event.logScalar "val_loss_del" loss_decode,
     Event.logScalar "val_loss_aux" loss_auxiliary,
     Event.logScalar "val_loss_tot" loss,
     Event.logMetric "val_f1_del",
     Event.logMetric "val_iou_del",
     Event.logMetric "val_f1_aux",
     Event.logMetric "val_iou_aux"]
  ⟨loss, batch, events⟩

/-! ### Construction-time records

`__init__` of both modules is translated into a pure constructor returning a
record of every loss criterion and metric accumulator it builds, with the
constructor arguments each collaborator receives (in particular the
`ignore_index` parameter), plus the updated configuration (the `dict.pop` on
the decode-head section is an observable mutation of the caller's config). -/

/-- Constructor arguments of one loss criterion. -/
structure LossSpec where
  kind : String
  ignore_index : ℕ
  deriving DecidableEq, Repr

/-- Constructor arguments of one metric accumulator, keyed by its registered
name. -/
structure MetricSpec where
  name : String
  kind : String
  task : String
  ignore_index : ℕ
  num_classes : Option ℕ
  deriving DecidableEq, Repr

/-- The decode-head section of the configuration mapping: the optional
`"aux_factor"` entry and the `aux_classes` entry read by `__init__`. -/
structure DecodeHeadCfg where
  aux_factor : Option ℚ
  aux_classes : ℕ
  deriving DecidableEq, Repr

/-- The configuration mapping, restricted to what `MultiTaskModule.__init__`
reads or mutates. -/
structure Config where
  decode_head : DecodeHeadCfg
  deriving DecidableEq, Repr

/-- `config.decode_head.pop("aux_factor", 1.0)`: return the stored value or the
default `1.0`, and remove the key from the mapping. -/
def popAuxFactor (c : Config) : ℚ × Config :=
  (c.decode_head.aux_factor.getD 1,
   { c with decode_head := { c.decode_head with aux_factor := none } })

/-- Everything `MultiTaskModule.__init__` constructs that consumes labels,
plus the auxiliary weight factor it stores. -/
structure MTMCtorRecord where
  aux_factor : ℚ
  criterion_decode : LossSpec
  criterion_auxiliary : LossSpec
  metrics : List MetricSpec
  deriving DecidableEq, Repr

/-- The two auxiliary metrics registered for one split
(multi.py lines 47-70). -/
def auxMetricsFor (split : String) (num_classes : ℕ) : List MetricSpec :=
  [⟨split ++ "_f1_aux", "F1Score", "multiclass", 255, some num_classes⟩,
   ⟨split ++ "_iou_aux", "JaccardIndex", "multiclass", 255, some num_classes⟩]

/-- The two delineation metrics registered for one split in severity mode
(multi.py lines 72-96). -/
def sevMetricsFor (split : String) : List MetricSpec :=
  [⟨split ++ "_f1", "F1Score", "multiclass", 255, some 5⟩,
   ⟨split ++ "_iou", "JaccardIndex", "multiclass", 255, some 5⟩]

/-- `MultiTaskModule.__init__` (multi.py lines 13-96): choose the decode
criterion from `severity`/`loss`, build the auxiliary criterion, pop
`aux_factor` from the decode-head config (default 1.0), read `aux_classes`,
and register the metric accumulators (delineation metrics only in severity
mode; otherwise they come from `BaseModule`, outside this file's scope).
Returns the record together with the mutated configuration. -/
def mkMultiTaskModule (config : Config) (loss : String) (severity : Bool) :
    MTMCtorRecord × Config :=
  let criterion_decode : LossSpec :=
    if severity then ⟨"CrossEntropyLoss", 255⟩
    else if loss == "bce" then ⟨"SoftBCEWithLogitsLoss", 255⟩
    else ⟨"DiceLoss", 255⟩
  let criterion_auxiliary : LossSpec := ⟨"CrossEntropyLoss", 255⟩
  let af := popAuxFactor config
  let num_classes := af.2.decode_head.aux_classes
  let metrics :=
    auxMetricsFor "train" num_classes ++ auxMetricsFor "val" num_classes
      ++ auxMetricsFor "test" num_classes
      ++ (if severity then sevMetricsFor "train" ++ sevMetricsFor "val" ++ sevMetricsFor "test"
          else [])
  (⟨af.1, criterion_decode, criterion_auxiliary, metrics⟩, af.2)

/-- Everything `MMSegModule.__init__` constructs that consumes labels. -/
structure MMSegCtorRecord where
  criterion_decode : LossSpec
  criterion_auxiliary : LossSpec
  metrics : List MetricSpec
  deriving DecidableEq, Repr

/-- `MMSegModule.__init__` (modules.py lines 12-22). -/
def mkMMSegModule : MMSegCtorRecord :=
  { criterion_decode := ⟨"SoftBCEWithLogitsLoss", 255⟩
    criterion_auxiliary := ⟨"CrossEntropyLoss", 255⟩
    metrics :=
      [⟨"f1_del", "F1Score", "binary", 255, none⟩,
       ⟨"f1_aux", "F1Score", "multiclass", 255, some 11⟩,
       ⟨"iou_del", "JaccardIndex", "binary", 255, none⟩,
       ⟨"iou_aux", "JaccardIndex", "multiclass", 255, some 11⟩] }

/-! ### `CustomEncoderDecoder` (encoder_decoder.py) -/

/-- A `[N, C, H, W]` tensor: shape plus an indexing function. -/
structure Tensor4 where
  n : ℕ
  c : ℕ
  h : ℕ
  w : ℕ
  data : ℕ → ℕ → ℕ → ℕ → ℚ

/-- Source coordinate of output index `i` under
`F.interpolate(..., mode="bilinear", align_corners=True)`. -/
def srcCoord (outSz inSz i : ℕ) : ℚ :=
  if outSz ≤ 1 then 0 else (i : ℚ) * ((inSz : ℚ) - 1) / ((outSz : ℚ) - 1)

/-- `F.interpolate(t, size=(h, w), mode="bilinear", align_corners=True)`. -/
def interpolateBilinear (t : Tensor4) (h w : ℕ) : Tensor4 :=
  { n := t.n, c := t.c, h := h, w := w
    data := fun b ch i j =>
      let sy := srcCoord h t.h i
      let sx := srcCoord w t.w j
      let y0 := sy.floor.toNat
      let x0 := sx.floor.toNat
      let y1 := min (y0 + 1) (t.h - 1)
      let x1 := min (x0 + 1) (t.w - 1)
      let dy := sy - (y0 : ℚ)
      let dx := sx - (x0 : ℚ)
      (1 - dy) * (1 - dx) * t.data b ch y0 x0 + (1 - dy) * dx * t.data b ch y0 x1
        + dy * (1 - dx) * t.data b ch y1 x0 + dy * dx * t.data b ch y1 x1 }

/-- `CustomEncoderDecoder`: backbone, decode head and optional auxiliary head
(`with_auxiliary_head` is the presence of the latter). -/
structure CustomEncoderDecoder where
  extract_feat : Tensor4 → Tensor4
  decode_head : Tensor4 → Tensor4
  auxiliary_head : Option (Tensor4 → Tensor4)

/-- Result of `CustomEncoderDecoder._forward`: either a single decode tensor or
a `(decode, auxiliary)` pair. -/
inductive ForwardOut where
  | single (t : Tensor4)
  | pair (t1 t2 : Tensor4)

/-- `CustomEncoderDecoder._forward` (encoder_decoder.py lines 9-28). -/
def CustomEncoderDecoder._forward (m : CustomEncoderDecoder) (inputs : Tensor4) : ForwardOut :=
  let x := m.extract_feat inputs
  let x_h1 := interpolateBilinear (m.decode_head x) inputs.h inputs.w
  match m.auxiliary_head with
  | some aux => ForwardOut.pair x_h1 (interpolateBilinear (aux x) inputs.h inputs.w)
  | none => ForwardOut.single x_h1

/-- The two-value unpacking `decode_out, auxiliary_out = self.model(x)` done by
every step method: succeeds exactly on a pair. -/
def unpack2 : ForwardOut → Option (Tensor4 × Tensor4)
  | ForwardOut.single _ => none
  | ForwardOut.pair t1 t2 => some (t1, t2)

/-! ### Trace projections -/

/-- The arguments of the decode-loss calls in a trace, in order. -/
def decodeLossEvents (es : List Event) : List (DecodePred × DecodeTarget) :=
  es.filterMap (fun e =>
    match e with
    | Event.decodeLossCall p t => some (p, t)
    | _ => none)

/-- The arguments of the auxiliary-loss calls in a trace, in order. -/
def auxLossEvents (es : List Event) : List (Vol × List ℤ) :=
  es.filterMap (fun e =>
    match e with
    | Event.auxLossCall v ys => some (v, ys)
    | _ => none)

/-- The auxiliary metric-accumulator updates in a trace, in order. -/
def auxMetricEvents (es : List Event) : List (String × AuxPred × List ℤ) :=
  es.filterMap (fun e =>
    match e with
    | Event.auxMetricUpdate n p ys => some (n, p, ys)
    | _ => none)

/-- The delineation metric-accumulator updates in a trace, in order. -/
def decodeMetricEvents (es : List Event) : List (String × DecodePred × DecodeTarget) :=
  es.filterMap (fun e =>
    match e with
    | Event.metricUpdate n p t => some (n, p, t)
    | _ => none)

/-- Erase metric names and log keys from an event, keeping everything else:
two traces with equal erasures differ only in which metric set is updated and
which log key names are used. -/
def eraseNames : Event → Event
  | Event.logScalar _ v => Event.logScalar "" v
  | Event.metricUpdate _ p t => Event.metricUpdate "" p t
  | Event.auxMetricUpdate _ p ys => Event.auxMetricUpdate "" p ys
  | Event.logMetric _ => Event.logMetric ""
  | e => e

/-- Whether an auxiliary-metric prediction argument is the raw logit volume. -/
def AuxPred.isLogits : AuxPred → Bool
  | AuxPred.logits _ => true
  | AuxPred.classIdx _ => false

/-- Whether a decode prediction argument is the channel-squeezed logit vector
(the form the non-severity decode loss consumes). -/
def DecodePred.isSqueezed : DecodePred → Bool
  | DecodePred.squeezed _ => true
  | _ => false

/-- Spatial shapes of the tensors in a forward output, in order. -/
def outShapes : ForwardOut → List (ℕ × ℕ)
  | ForwardOut.single t => [(t.h, t.w)]
  | ForwardOut.pair t1 t2 => [(t1.h, t1.w), (t2.h, t2.w)]

/-! ### Derived loss projections -/

/-- The land-cover labels a training/validation step actually consumes:
masked when `mask_lc` is set. -/
def lcUsed {I : Type} (m : MultiTaskModule I) (batch : Batch I) : List ℤ :=
  if m.mask_lc then maskLC batch.y_lc batch.y_del else batch.y_lc

/-- The delineation loss of a batch (multi.py lines 105-108). -/
def delLoss {I : Type} (m : MultiTaskModule I) (batch : Batch I) : ℚ :=
  m.criterion_decode (decodeArgs m (m.model batch.img).1 batch.y_del).1
    (decodeArgs m (m.model batch.img).1 batch.y_del).2

/-- The auxiliary loss of a batch (multi.py line 109). -/
def auxLoss {I : Type} (m : MultiTaskModule I) (batch : Batch I) : ℚ :=
  m.criterion_auxiliary (m.model batch.img).2 (lcUsed m batch)

/-- The delineation loss of an `MMSegModule` batch (modules.py line 30). -/
def mmDelLoss {I : Type} (m : MMSegModule I) (batch : Batch I) : ℚ :=
  m.criterion_decode (DecodePred.squeezed (squeeze1 (m.model batch.img).1))
    (DecodeTarget.floatT (toFloatT batch.y_del))

/-- The auxiliary loss of an `MMSegModule` batch (modules.py line 31). -/
def mmAuxLoss {I : Type} (m : MMSegModule I) (batch : Batch I) : ℚ :=
  m.criterion_auxiliary (m.model batch.img).2 batch.y_lc

/-! ### Trace computation lemmas -/

theorem filterMap_flatMap_pair_none {α β γ : Type} (l : List α) (f g : α → β)
    (h : β → Option γ) (hf : ∀ a, h (f a) = none) (hg : ∀ a, h (g a) = none) :
    ((l.flatMap fun a => [f a, g a]).filterMap h) = [] := by
  induction l with
  | nil => rfl
  | cons a t ih => simp [List.flatMap_cons, List.filterMap_append, List.filterMap_cons, hf, hg, ih]

theorem filterMap_flatMap_pair_fst {α β γ : Type} (l : List α) (f g : α → β)
    (h : β → Option γ) (r : α → γ) (hf : ∀ a, h (f a) = some (r a))
    (hg : ∀ a, h (g a) = none) :
    ((l.flatMap fun a => [f a, g a]).filterMap h) = l.map r := by
  induction l with
  | nil => rfl
  | cons a t ih => simp [List.flatMap_cons, List.filterMap_append, List.filterMap_cons, hf, hg, ih]

theorem decodeLossEvents_nil : decodeLossEvents [] = [] := rfl

theorem decodeLossEvents_cons (e : Event) (es : List Event) :
    decodeLossEvents (e :: es) =
      (match e with
       | Event.decodeLossCall p t => [(p, t)]
       | _ => []) ++ decodeLossEvents es := by
  cases e <;> simp [decodeLossEvents]

theorem decodeLossEvents_append (es fs : List Event) :
    decodeLossEvents (es ++ fs) = decodeLossEvents es ++ decodeLossEvents fs := by
  simp [decodeLossEvents]

theorem decodeLossEvents_decBlock (names : List String) (p : DecodePred) (t : DecodeTarget) :
    decodeLossEvents (names.flatMap fun n => [Event.metricUpdate n p t, Event.logMetric n]) = [] :=
  filterMap_flatMap_pair_none names _ _ _ (fun _ => rfl) (fun _ => rfl)

theorem decodeLossEvents_auxBlock (names : List String) (p : AuxPred) (ys : List ℤ) :
    decodeLossEvents
      (names.flatMap fun n => [Event.auxMetricUpdate n p ys, Event.logMetric n]) = [] :=
  filterMap_flatMap_pair_none names _ _ _ (fun _ => rfl) (fun _ => rfl)

theorem auxLossEvents_nil : auxLossEvents [] = [] := rfl

theorem auxLossEvents_cons (e : Event) (es : List Event) :
    auxLossEvents (e :: es) =
      (match e with
       | Event.auxLossCall v ys => [(v, ys)]
       | _ => []) ++ auxLossEvents es := by
  cases e <;> simp [auxLossEvents]

theorem auxLossEvents_append (es fs : List Event) :
    auxLossEvents (es ++ fs) = auxLossEvents es ++ auxLossEvents fs := by
  simp [auxLossEvents]

theorem auxLossEvents_decBlock (names : List String) (p : DecodePred) (t : DecodeTarget) :
    auxLossEvents (names.flatMap fun n => [Event.metricUpdate n p t, Event.logMetric n]) = [] :=
  filterMap_flatMap_pair_none names _ _ _ (fun _ => rfl) (fun _ => rfl)

theorem auxLossEvents_auxBlock (names : List String) (p : AuxPred) (ys : List ℤ) :
    auxLossEvents
      (names.flatMap fun n => [Event.auxMetricUpdate n p ys, Event.logMetric n]) = [] :=
  filterMap_flatMap_pair_none names _ _ _ (fun _ => rfl) (fun _ => rfl)

theorem decodeMetricEvents_nil : decodeMetricEvents [] = [] := rfl

theorem decodeMetricEvents_cons (e : Event) (es : List Event) :
    decodeMetricEvents (e :: es) =
      (match e with
       | Event.metricUpdate n p t => [(n, p, t)]
       | _ => []) ++ decodeMetricEvents es := by
  cases e <;> simp [decodeMetricEvents]

theorem decodeMetricEvents_append (es fs : List Event) :
    decodeMetricEvents (es ++ fs) = decodeMetricEvents es ++ decodeMetricEvents fs := by
  simp [decodeMetricEvents]

theorem decodeMetricEvents_decBlock (names : List String) (p : DecodePred)
    (t : DecodeTarget) :
    decodeMetricEvents (names.flatMap fun n => [Event.metricUpdate n p t, Event.logMetric n])
      = names.map (fun n => (n, p, t)) :=
  filterMap_flatMap_pair_fst names _ _ _ _ (fun _ => rfl) (fun _ => rfl)

theorem decodeMetricEvents_auxBlock (names : List String) (p : AuxPred) (ys : List ℤ) :
    decodeMetricEvents
      (names.flatMap fun n => [Event.auxMetricUpdate n p ys, Event.logMetric n]) = [] :=
  filterMap_flatMap_pair_none names _ _ _ (fun _ => rfl) (fun _ => rfl)

theorem auxMetricEvents_nil : auxMetricEvents [] = [] := rfl

theorem auxMetricEvents_cons (e : Event) (es : List Event) :
    auxMetricEvents (e :: es) =
      (match e with
       | Event.auxMetricUpdate n p ys => [(n, p, ys)]
       | _ => []) ++ auxMetricEvents es := by
  cases e <;> simp [auxMetricEvents]

theorem auxMetricEvents_append (es fs : List Event) :
    auxMetricEvents (es ++ fs) = auxMetricEvents es ++ auxMetricEvents fs := by
  simp [auxMetricEvents]

theorem auxMetricEvents_decBlock (names : List String) (p : DecodePred) (t : DecodeTarget) :
    auxMetricEvents (names.flatMap fun n => [Event.metricUpdate n p t, Event.logMetric n]) = [] :=
  filterMap_flatMap_pair_none names _ _ _ (fun _ => rfl) (fun _ => rfl)

theorem auxMetricEvents_auxBlock (names : List String) (p : AuxPred) (ys : List ℤ) :
    auxMetricEvents
      (names.flatMap fun n => [Event.auxMetricUpdate n p ys, Event.logMetric n])
      = names.map (fun n => (n, p, ys)) :=
  filterMap_flatMap_pair_fst names _ _ _ _ (fun _ => rfl) (fun _ => rfl)

/-! ### Per-step trace lemmas -/

theorem decodeLossEvents_training {I : Type} (m : MultiTaskModule I) (b : Batch I) :
    decodeLossEvents (m.training_step b).events
      = [decodeArgs m (m.model b.img).1 b.y_del] := by
  simp [MultiTaskModule.training_step, decodeLossEvents_cons, decodeLossEvents_append,
    decodeLossEvents_decBlock, decodeLossEvents_auxBlock, decodeLossEvents_nil]

theorem decodeLossEvents_validation {I : Type} (m : MultiTaskModule I) (b : Batch I) :
    decodeLossEvents (m.validation_step b).events
      = [decodeArgs m (m.model b.img).1 b.y_del] := by
  simp [MultiTaskModule.validation_step, decodeLossEvents_cons, decodeLossEvents_append,
    decodeLossEvents_decBlock, decodeLossEvents_auxBlock, decodeLossEvents_nil]

theorem decodeLossEvents_test {I : Type} (m : MultiTaskModule I) (b : Batch I) :
    decodeLossEvents (m.test_step b).events
      = [decodeArgs m (m.model b.img).1 b.y_del] := by
  simp [MultiTaskModule.test_step, decodeLossEvents_cons, decodeLossEvents_append,
    decodeLossEvents_decBlock, decodeLossEvents_nil]

theorem auxLossEvents_training {I : Type} (m : MultiTaskModule I) (b : Batch I) :
    auxLossEvents (m.training_step b).events = [((m.model b.img).2, lcUsed m b)] := by
  simp [MultiTaskModule.training_step, lcUsed, auxLossEvents_cons, auxLossEvents_append,
    auxLossEvents_decBlock, auxLossEvents_auxBlock, auxLossEvents_nil]

theorem auxLossEvents_validation {I : Type} (m : MultiTaskModule I) (b : Batch I) :
    auxLossEvents (m.validation_step b).events = [((m.model b.img).2, lcUsed m b)] := by
  simp [MultiTaskModule.validation_step, lcUsed, auxLossEvents_cons, auxLossEvents_append,
    auxLossEvents_decBlock, auxLossEvents_auxBlock, auxLossEvents_nil]

theorem auxLossEvents_test {I : Type} (m : MultiTaskModule I) (b : Batch I) :
    auxLossEvents (m.test_step b).events = [] := by
  simp [MultiTaskModule.test_step, auxLossEvents_cons, auxLossEvents_append,
    auxLossEvents_decBlock, auxLossEvents_nil]

theorem decodeMetricEvents_training {I : Type} (m : MultiTaskModule I) (b : Batch I) :
    decodeMetricEvents (m.training_step b).events
      = m.train_metrics.map (fun n => (n, decodeArgs m (m.model b.img).1 b.y_del)) := by
  simp [MultiTaskModule.training_step, decodeMetricEvents_cons, decodeMetricEvents_append,
    decodeMetricEvents_decBlock, decodeMetricEvents_auxBlock, decodeMetricEvents_nil]

theorem decodeMetricEvents_validation {I : Type} (m : MultiTaskModule I) (b : Batch I) :
    decodeMetricEvents (m.validation_step b).events
      = m.val_metrics.map (fun n => (n, decodeArgs m (m.model b.img).1 b.y_del)) := by
  simp [MultiTaskModule.validation_step, decodeMetricEvents_cons, decodeMetricEvents_append,
    decodeMetricEvents_decBlock, decodeMetricEvents_auxBlock, decodeMetricEvents_nil]

theorem decodeMetricEvents_test {I : Type} (m : MultiTaskModule I) (b : Batch I) :
    decodeMetricEvents (m.test_step b).events
      = m.test_metrics.map (fun n => (n, decodeArgs m (m.model b.img).1 b.y_del)) := by
  simp [MultiTaskModule.test_step, decodeMetricEvents_cons, decodeMetricEvents_append,
    decodeMetricEvents_decBlock, decodeMetricEvents_nil]

theorem auxMetricEvents_training {I : Type} (m : MultiTaskModule I) (b : Batch I) :
    auxMetricEvents (m.training_step b).events
      = m.train_metrics_aux.map
          (fun n => (n, AuxPred.logits (m.model b.img).2, lcUsed m b)) := by
  simp [MultiTaskModule.training_step, lcUsed, auxMetricEvents_cons, auxMetricEvents_append,
    auxMetricEvents_decBlock, auxMetricEvents_auxBlock, auxMetricEvents_nil]

theorem auxMetricEvents_validation {I : Type} (m : MultiTaskModule I) (b : Batch I) :
    auxMetricEvents (m.validation_step b).events
      = m.val_metrics_aux.map
          (fun n => (n, AuxPred.logits (m.model b.img).2, lcUsed m b)) := by
  simp [MultiTaskModule.validation_step, lcUsed, auxMetricEvents_cons, auxMetricEvents_append,
    auxMetricEvents_decBlock, auxMetricEvents_auxBlock, auxMetricEvents_nil]

theorem auxMetricEvents_test {I : Type} (m : MultiTaskModule I) (b : Batch I) :
    auxMetricEvents (m.test_step b).events = [] := by
  simp [MultiTaskModule.test_step, auxMetricEvents_cons, auxMetricEvents_append,
    auxMetricEvents_decBlock, auxMetricEvents_nil]

/-! ### Indexing lemmas for `maskLC` -/

theorem maskLC_length (y_lc y_del : List ℤ) :
    (maskLC y_lc y_del).length = min y_lc.length y_del.length := by
  simp [maskLC]

theorem maskLC_getD_of_one (y_lc y_del : List ℤ) (hlen : y_lc.length = y_del.length)
    (i : ℕ) (hi : i < y_del.length) (h1 : y_del.getD i 0 = 1) :
    (maskLC y_lc y_del).getD i 0 = 255 := by
  have hz : i < (maskLC y_lc y_del).length := by
    rw [maskLC_length]; omega
  rw [List.getD_eq_getElem _ _ hz]
  rw [List.getD_eq_getElem _ _ hi] at h1
  simp [maskLC, h1]

theorem maskLC_getD_of_ne (y_lc y_del : List ℤ) (hlen : y_lc.length = y_del.length)
    (i : ℕ) (hne : y_del.getD i 0 ≠ 1) :
    (maskLC y_lc y_del).getD i 0 = y_lc.getD i 0 := by
  by_cases hi : i < y_del.length
  · have hz : i < (maskLC y_lc y_del).length := by
      rw [maskLC_length]; omega
    rw [List.getD_eq_getElem _ _ hz, List.getD_eq_getElem y_lc _ (by omega)]
    rw [List.getD_eq_getElem _ _ hi] at hne
    simp [maskLC, hne]
  · have hz : (maskLC y_lc y_del).length ≤ i := by
      rw [maskLC_length]; omega
    rw [List.getD_eq_default _ _ hz, List.getD_eq_default _ _ (by omega)]

/-! ### Name-erasure lemmas -/

theorem map_erase_decBlock (names : List String) (p : DecodePred) (t : DecodeTarget) :
    (names.flatMap fun n => [Event.metricUpdate n p t, Event.logMetric n]).map eraseNames
      = names.flatMap fun _ => [Event.metricUpdate "" p t, Event.logMetric ""] := by
  induction names with
  | nil => rfl
  | cons a l ih => simp [List.flatMap_cons, eraseNames] at *; exact ih

theorem map_erase_auxBlock (names : List String) (p : AuxPred) (ys : List ℤ) :
    (names.flatMap fun n => [Event.auxMetricUpdate n p ys, Event.logMetric n]).map eraseNames
      = names.flatMap fun _ => [Event.auxMetricUpdate "" p ys, Event.logMetric ""] := by
  induction names with
  | nil => rfl
  | cons a l ih => simp [List.flatMap_cons, eraseNames] at *; exact ih

theorem flatMap_const_of_length_eq {α β γ : Type} (l1 : List α) (l2 : List β) (c : List γ)
    (h : l1.length = l2.length) :
    (l1.flatMap fun _ => c) = l2.flatMap fun _ => c := by
  induction l1 generalizing l2 with
  | nil =>
    cases l2 with
    | nil => rfl
    | cons b t => simp at h
  | cons a t ih =>
    cases l2 with
    | nil => simp at h
    | cons b t2 =>
      simp only [List.flatMap_cons]
      rw [ih t2 (by simpa using h)]

/-! ### Concrete instances (used by witnesses and counterexamples) -/

/-- A concrete non-severity `MultiTaskModule` with label masking enabled. -/
def mtmA : MultiTaskModule Unit :=
  { severity := false
    mask_lc := true
    aux_factor := 2
    criterion_decode := fun _ _ => 3
    criterion_auxiliary := fun _ _ => 5
    model := fun _ => ([[1], [2]], [[1, 0], [0, 1]])
    tiler := fun i cb => cb [i]
    train_metrics := ["train_f1"]
    train_metrics_aux := ["train_f1_aux", "train_iou_aux"]
    val_metrics := ["val_f1"]
    val_metrics_aux := ["val_f1_aux", "val_iou_aux"]
    test_metrics := ["test_f1"]
    test_metrics_aux := ["test_f1_aux", "test_iou_aux"] }

/-- A concrete two-pixel batch: the first pixel is delineated. -/
def batchA : Batch Unit :=
  { img := [()], y_del := [1, 0], y_lc := [7, 9], pred := none }

/-- A concrete `MMSegModule`. -/
def mmA : MMSegModule Unit :=
  { criterion_decode := fun _ _ => 0
    criterion_auxiliary := fun _ _ => 0
    model := fun _ => ([[1], [0]], [[0, 1], [1, 0]]) }

/-- What label masking does to one training/validation step: land-cover labels
of delineated pixels read back as 255, all remaining batch entries untouched,
and the auxiliary criterion and every auxiliary metric receive the masked
labels. -/
def maskedStepSpec {I : Type} (m : MultiTaskModule I) (batch : Batch I)
    (r : StepResult I) : Prop :=
  r.batch.img = batch.img
  ∧ r.batch.y_del = batch.y_del
  ∧ r.batch.pred = batch.pred
  ∧ r.batch.y_lc.length = batch.y_lc.length
  ∧ (∀ i, i < batch.y_del.length → batch.y_del.getD i 0 = 1 →
      r.batch.y_lc.getD i 0 = 255)
  ∧ (∀ i, batch.y_del.getD i 0 ≠ 1 → r.batch.y_lc.getD i 0 = batch.y_lc.getD i 0)
  ∧ auxLossEvents r.events = [((m.model batch.img).2, r.batch.y_lc)]
  ∧ ∀ x ∈ auxMetricEvents r.events, x.2.2 = r.batch.y_lc

theorem maskedStepSpec_training {I : Type} (m : MultiTaskModule I) (batch : Batch I)
    (hm : m.mask_lc = true) (hlen : batch.y_lc.length = batch.y_del.length) :
    maskedStepSpec m batch (m.training_step batch) := by
  have hy : (m.training_step batch).batch.y_lc = maskLC batch.y_lc batch.y_del := by
    simp [MultiTaskModule.training_step, hm]
  refine ⟨rfl, rfl, rfl, ?_, ?_, ?_, ?_, ?_⟩
  · rw [hy, maskLC_length]; omega
  · intro i hi h1
    rw [hy]; exact maskLC_getD_of_one batch.y_lc batch.y_del hlen i hi h1
  · intro i hne
    rw [hy]; exact maskLC_getD_of_ne batch.y_lc batch.y_del hlen i hne
  · rw [auxLossEvents_training, hy]; simp [lcUsed, hm]
  · intro x hx
    rw [auxMetricEvents_training] at hx
    rw [hy]
    rcases List.mem_map.mp hx with ⟨n, _, rfl⟩
    simp [lcUsed, hm]

theorem maskedStepSpec_validation {I : Type} (m : MultiTaskModule I) (batch : Batch I)
    (hm : m.mask_lc = true) (hlen : batch.y_lc.length = batch.y_del.length) :
    maskedStepSpec m batch (m.validation_step batch) := by
  have hy : (m.validation_step batch).batch.y_lc = maskLC batch.y_lc batch.y_del := by
    simp [MultiTaskModule.validation_step, hm]
  refine ⟨rfl, rfl, rfl, ?_, ?_, ?_, ?_, ?_⟩
  · rw [hy, maskLC_length]; omega
  · intro i hi h1
    rw [hy]; exact maskLC_getD_of_one batch.y_lc batch.y_del hlen i hi h1
  · intro i hne
    rw [hy]; exact maskLC_getD_of_ne batch.y_lc batch.y_del hlen i hne
  · rw [auxLossEvents_validation, hy]; simp [lcUsed, hm]
  · intro x hx
    rw [auxMetricEvents_validation] at hx
    rw [hy]
    rcases List.mem_map.mp hx with ⟨n, _, rfl⟩
    simp [lcUsed, hm]

/-! ### Claims -/

/-- C1: for every batch, the composite loss returned by
`MultiTaskModule.training_step` and `validation_step` equals the delineation
loss plus `aux_factor` times the auxiliary loss, where `aux_factor` is read
once at construction from the decode-head configuration with default 1.0;
`MMSegModule`'s steps compute the same sum with the factor fixed at 1. -/
theorem C1_composite_loss {I J : Type} (m : MultiTaskModule I) (batch : Batch I)
    (sig : ℚ → ℚ) (mm : MMSegModule J) (mbatch : Batch J)
    (config : Config) (loss : String) (severity : Bool) :
    (m.training_step batch).loss = delLoss m batch + m.aux_factor * auxLoss m batch
    ∧ (m.validation_step batch).loss = delLoss m batch + m.aux_factor * auxLoss m batch
    ∧ (MMSegModule.training_step sig mm mbatch).loss
        = mmDelLoss mm mbatch + 1 * mmAuxLoss mm mbatch
    ∧ (MMSegModule.validation_step sig mm mbatch).loss
        = mmDelLoss mm mbatch + 1 * mmAuxLoss mm mbatch
    ∧ (mkMultiTaskModule config loss severity).1.aux_factor
        = config.decode_head.aux_factor.getD 1 := by
  refine ⟨rfl, rfl, ?_, ?_, rfl⟩ <;>
    simp [MMSegModule.training_step, MMSegModule.validation_step, mmDelLoss, mmAuxLoss]

/-- C2: whenever label masking is enabled, a training/validation step
overwrites — in place, before the auxiliary loss or any auxiliary metric is
invoked — the land-cover label with the ignore sentinel 255 at every pixel
whose delineation label equals 1, and modifies no other entry of the batch. -/
theorem C2_label_masking {I : Type} (m : MultiTaskModule I) (batch : Batch I)
    (hm : m.mask_lc = true) (hlen : batch.y_lc.length = batch.y_del.length) :
    maskedStepSpec m batch (m.training_step batch)
    ∧ maskedStepSpec m batch (m.validation_step batch) :=
  ⟨maskedStepSpec_training m batch hm hlen, maskedStepSpec_validation m batch hm hlen⟩

/-- Witness for C2 at a concrete module and batch. -/
theorem C2_label_masking_witness :
    maskedStepSpec mtmA batchA (mtmA.training_step batchA)
    ∧ maskedStepSpec mtmA batchA (mtmA.validation_step batchA) :=
  C2_label_masking mtmA batchA rfl rfl

/-- C3: for every batch, `MultiTaskModule.test_step` returns exactly the
delineation loss, never calls the auxiliary criterion, never updates an
auxiliary metric accumulator, and leaves the batch untouched. -/
theorem C3_test_step_delineation_only {I : Type} (m : MultiTaskModule I) (batch : Batch I) :
    (m.test_step batch).loss = delLoss m batch
    ∧ auxLossEvents (m.test_step batch).events = []
    ∧ auxMetricEvents (m.test_step batch).events = []
    ∧ (m.test_step batch).batch = batch :=
  ⟨rfl, auxLossEvents_test m batch, auxMetricEvents_test m batch, rfl⟩

/-- C4: in every step of `MultiTaskModule`, the decode criterion is called
exactly once, with the full logit volume and integer (`long`) targets in
severity mode, and with the channel-squeezed logits and float targets
otherwise. -/
theorem C4_decode_loss_arguments {I : Type} (m : MultiTaskModule I) (batch : Batch I) :
    decodeLossEvents (m.training_step batch).events
      = [if m.severity then
           (DecodePred.volume (m.model batch.img).1, DecodeTarget.longT batch.y_del)
         else
           (DecodePred.squeezed (squeeze1 (m.model batch.img).1),
            DecodeTarget.floatT (toFloatT batch.y_del))]
    ∧ decodeLossEvents (m.validation_step batch).events
      = [if m.severity then
           (DecodePred.volume (m.model batch.img).1, DecodeTarget.longT batch.y_del)
         else
           (DecodePred.squeezed (squeeze1 (m.model batch.img).1),
            DecodeTarget.floatT (toFloatT batch.y_del))]
    ∧ decodeLossEvents (m.test_step batch).events
      = [if m.severity then
           (DecodePred.volume (m.model batch.img).1, DecodeTarget.longT batch.y_del)
         else
           (DecodePred.squeezed (squeeze1 (m.model batch.img).1),
            DecodeTarget.floatT (toFloatT batch.y_del))] := by
  refine ⟨?_, ?_, ?_⟩
  · rw [decodeLossEvents_training]; simp [decodeArgs]
  · rw [decodeLossEvents_validation]; simp [decodeArgs]
  · rw [decodeLossEvents_test]; simp [decodeArgs]

/-- C5: `predict_step` attaches under `pred` the element-wise sigmoid of the
tiler's reconstruction from the first image of the batch; for a tiler that
needs no stitching (one call on the single tile) in binary mode, the attached
prediction is the sigmoid of the channel-squeezed model output on that image. -/
theorem C5_predict_attaches_sigmoid {I : Type} (sig : ℚ → ℚ) (m : MultiTaskModule I)
    (batch : Batch I) (i0 : I) (rest : List I) (him : batch.img = i0 :: rest) :
    MultiTaskModule.predict_step sig m batch
      = some { batch with pred := some ((m.tiler i0 (predictCallback m)).map sig) }
    ∧ ((∀ cb, m.tiler i0 cb = cb [i0]) → m.severity = false →
        MultiTaskModule.predict_step sig m batch
          = some { batch with pred := some ((squeeze1 (m.model [i0]).1).map sig) }) := by
  constructor
  · simp [MultiTaskModule.predict_step, him]
  · intro hone hsev
    simp [MultiTaskModule.predict_step, him, hone, predictCallback, hsev]

/-- Witness for C5: a concrete one-tile binary-mode prediction. -/
theorem C5_predict_attaches_sigmoid_witness :
    MultiTaskModule.predict_step id mtmA batchA
      = some { batchA with pred := some ((squeeze1 (mtmA.model [()]).1).map id) } :=
  (C5_predict_attaches_sigmoid id mtmA batchA () [] rfl).2 (fun _ => rfl) rfl

/-- C6 counterexample: the claim fails in two places.  `MultiTaskModule`
registers auxiliary metric accumulators for the test split yet its `test_step`
never updates any of them; and `MMSegModule`'s auxiliary metrics receive
arg-maxed class indices, not the raw multi-class logits. -/
theorem C6_counterexample :
    mtmA.test_metrics_aux ≠ []
    ∧ auxMetricEvents (mtmA.test_step batchA).events = []
    ∧ ((auxMetricEvents (MMSegModule.training_step id mmA batchA).events).all
        (fun x => x.2.1.isLogits)) = false
    ∧ decodeLossEvents (MMSegModule.training_step id mmA batchA).events
        = [(DecodePred.squeezed (squeeze1 (mmA.model batchA.img).1),
            DecodeTarget.floatT (toFloatT batchA.y_del))]
    ∧ ((decodeMetricEvents (MMSegModule.training_step id mmA batchA).events).all
        (fun x => x.2.1.isSqueezed)) = false := by
  refine ⟨by decide, auxMetricEvents_test mtmA batchA, by decide, by decide, by decide⟩

/-- C6 (amended): in `MultiTaskModule` training and validation steps every
registered auxiliary metric receives the raw multi-class auxiliary logits with
the integer land-cover labels, and in every step each decode metric receives
exactly the decode loss's argument pair; the test step updates no auxiliary
metric although accumulators are registered for it; `MMSegModule`'s auxiliary
metrics instead receive arg-maxed class indices and its delineation metrics
thresholded sigmoid outputs. -/
theorem C6_amended_metric_arguments {I J : Type} (m : MultiTaskModule I) (batch : Batch I)
    (sig : ℚ → ℚ) (mm : MMSegModule J) (mbatch : Batch J) :
    auxMetricEvents (m.training_step batch).events
      = m.train_metrics_aux.map
          (fun n => (n, AuxPred.logits (m.model batch.img).2, lcUsed m batch))
    ∧ auxMetricEvents (m.validation_step batch).events
      = m.val_metrics_aux.map
          (fun n => (n, AuxPred.logits (m.model batch.img).2, lcUsed m batch))
    ∧ auxMetricEvents (m.test_step batch).events = []
    ∧ decodeMetricEvents (m.training_step batch).events
      = m.train_metrics.map (fun n => (n, decodeArgs m (m.model batch.img).1 batch.y_del))
    ∧ decodeMetricEvents (m.validation_step batch).events
      = m.val_metrics.map (fun n => (n, decodeArgs m (m.model batch.img).1 batch.y_del))
    ∧ decodeMetricEvents (m.test_step batch).events
      = m.test_metrics.map (fun n => (n, decodeArgs m (m.model batch.img).1 batch.y_del))
    ∧ auxMetricEvents (MMSegModule.training_step sig mm mbatch).events
      = [("f1_aux", AuxPred.classIdx (argmax1 (mm.model mbatch.img).2), mbatch.y_lc),
         ("iou_aux", AuxPred.classIdx (argmax1 (mm.model mbatch.img).2), mbatch.y_lc)]
    ∧ decodeMetricEvents (MMSegModule.training_step sig mm mbatch).events
      = [("f1_del",
          DecodePred.boolMask (threshHalf sig (squeeze1 (mm.model mbatch.img).1)),
          DecodeTarget.floatT (toFloatT mbatch.y_del)),
         ("iou_del",
          DecodePred.boolMask (threshHalf sig (squeeze1 (mm.model mbatch.img).1)),
          DecodeTarget.floatT (toFloatT mbatch.y_del))]
    ∧ auxMetricEvents (MMSegModule.validation_step sig mm mbatch).events
      = [("f1_aux", AuxPred.classIdx (argmax1 (mm.model mbatch.img).2), mbatch.y_lc),
         ("iou_aux", AuxPred.classIdx (argmax1 (mm.model mbatch.img).2), mbatch.y_lc)]
    ∧ decodeMetricEvents (MMSegModule.validation_step sig mm mbatch).events
      = [("f1_del",
          DecodePred.boolMask (threshHalf sig (squeeze1 (mm.model mbatch.img).1)),
          DecodeTarget.floatT (toFloatT mbatch.y_del)),
         ("iou_del",
          DecodePred.boolMask (threshHalf sig (squeeze1 (mm.model mbatch.img).1)),
          DecodeTarget.floatT (toFloatT mbatch.y_del))] := by
  refine ⟨auxMetricEvents_training m batch, auxMetricEvents_validation m batch,
    auxMetricEvents_test m batch, decodeMetricEvents_training m batch,
    decodeMetricEvents_validation m batch, decodeMetricEvents_test m batch,
    ?_, ?_, ?_, ?_⟩
  · simp [MMSegModule.training_step, auxMetricEvents_cons, auxMetricEvents_append,
      auxMetricEvents_nil]
  · simp [MMSegModule.training_step, decodeMetricEvents_cons, decodeMetricEvents_append,
      decodeMetricEvents_nil]
  · simp [MMSegModule.validation_step, auxMetricEvents_cons, auxMetricEvents_append,
      auxMetricEvents_nil]
  · simp [MMSegModule.validation_step, decodeMetricEvents_cons, decodeMetricEvents_append,
      decodeMetricEvents_nil]

/-- C7: on the same module state and batch, `training_step` and
`validation_step` return the same composite loss, perform the same batch
mutation and issue the same decode/auxiliary loss calls; when the train and
validation metric sets have matching sizes the two traces are identical up to
metric names and log keys. -/
theorem C7_train_val_same_policy {I : Type} (m : MultiTaskModule I) (batch : Batch I)
    (h1 : m.train_metrics.length = m.val_metrics.length)
    (h2 : m.train_metrics_aux.length = m.val_metrics_aux.length) :
    (m.training_step batch).loss = (m.validation_step batch).loss
    ∧ (m.training_step batch).batch = (m.validation_step batch).batch
    ∧ decodeLossEvents (m.training_step batch).events
        = decodeLossEvents (m.validation_step batch).events
    ∧ auxLossEvents (m.training_step batch).events
        = auxLossEvents (m.validation_step batch).events
    ∧ (m.training_step batch).events.map eraseNames
        = (m.validation_step batch).events.map eraseNames := by
  refine ⟨rfl, rfl, ?_, ?_, ?_⟩
  · rw [decodeLossEvents_training, decodeLossEvents_validation]
  · rw [auxLossEvents_training, auxLossEvents_validation]
  · simp only [MultiTaskModule.training_step, MultiTaskModule.validation_step,
      List.map_append, List.map_cons, List.map_nil, eraseNames,
      map_erase_decBlock, map_erase_auxBlock]
    rw [flatMap_const_of_length_eq _ _ _ h1, flatMap_const_of_length_eq _ _ _ h2]

/-- Witness for C7 at a concrete module and batch. -/
theorem C7_train_val_same_policy_witness :
    (mtmA.training_step batchA).loss = (mtmA.validation_step batchA).loss
    ∧ (mtmA.training_step batchA).batch = (mtmA.validation_step batchA).batch
    ∧ decodeLossEvents (mtmA.training_step batchA).events
        = decodeLossEvents (mtmA.validation_step batchA).events
    ∧ auxLossEvents (mtmA.training_step batchA).events
        = auxLossEvents (mtmA.validation_step batchA).events
    ∧ (mtmA.training_step batchA).events.map eraseNames
        = (mtmA.validation_step batchA).events.map eraseNames :=
  C7_train_val_same_policy mtmA batchA rfl rfl

/-- C8: every loss criterion and metric accumulator constructed by
`MultiTaskModule.__init__` (in both severity and non-severity mode, for either
loss choice, across all splits) and by `MMSegModule.__init__` is parameterized
with the ignore-label sentinel 255. -/
theorem C8_ignore_sentinel_everywhere (config : Config) (loss : String) (severity : Bool) :
    (mkMultiTaskModule config loss severity).1.criterion_decode.ignore_index = 255
    ∧ (mkMultiTaskModule config loss severity).1.criterion_auxiliary.ignore_index = 255
    ∧ ((mkMultiTaskModule config loss severity).1.metrics.all
        (fun s => s.ignore_index == 255)) = true
    ∧ mkMMSegModule.criterion_decode.ignore_index = 255
    ∧ mkMMSegModule.criterion_auxiliary.ignore_index = 255
    ∧ (mkMMSegModule.metrics.all (fun s => s.ignore_index == 255)) = true := by
  refine ⟨?_, rfl, ?_, rfl, rfl, rfl⟩
  · cases severity <;> cases hb : (loss == "bce") <;> simp [mkMultiTaskModule, hb]
  · cases severity <;>
      simp [mkMultiTaskModule, auxMetricsFor, sevMetricsFor, popAuxFactor]

/-- C9: constructing a `MultiTaskModule` pops `"aux_factor"` from the
decode-head section of the caller's configuration: afterwards the key is
absent, so a second module constructed from the same configuration object
observes the default 1.0 regardless of the original setting; the rest of the
decode-head section is untouched. -/
theorem C9_ctor_pops_aux_factor (config : Config) (loss loss2 : String)
    (severity severity2 : Bool) :
    (mkMultiTaskModule config loss severity).2.decode_head.aux_factor = none
    ∧ (mkMultiTaskModule (mkMultiTaskModule config loss severity).2
        loss2 severity2).1.aux_factor = 1
    ∧ (mkMultiTaskModule config loss severity).1.aux_factor
        = config.decode_head.aux_factor.getD 1
    ∧ (mkMultiTaskModule config loss severity).2.decode_head.aux_classes
        = config.decode_head.aux_classes := by
  refine ⟨rfl, ?_, rfl, rfl⟩
  simp [mkMultiTaskModule, popAuxFactor]

/-- C10: `CustomEncoderDecoder._forward` returns a two-tensor output exactly
when the model has an auxiliary head — so the two-value unpacking done by every
step has the presence of an auxiliary head as precondition — and every returned
tensor has been interpolated to the spatial size of the input. -/
theorem C10_forward_pair_iff_aux_head (net : CustomEncoderDecoder) (inputs : Tensor4) :
    outShapes (net._forward inputs)
      = (if net.auxiliary_head.isSome then
           [(inputs.h, inputs.w), (inputs.h, inputs.w)]
         else [(inputs.h, inputs.w)])
    ∧ (unpack2 (net._forward inputs)).isSome = net.auxiliary_head.isSome := by
  cases h : net.auxiliary_head <;>
    simp [CustomEncoderDecoder._forward, outShapes, unpack2, interpolateBilinear, h]

end Baseg
